import Mathlib

/-!
Shallow embedding of the order/stock list dashboard
(`src/src/components/Order/OrderList.tsx` and the StockList component).

The data model mirrors the TypeScript interfaces; the handlers are modelled
as pure state transformers, with the remote HTTP outcome passed in as an
explicit argument (`respOk` / a `FetchOutcome`).  `setTimeout` callbacks are
modelled as `ScheduledTimer` values returned by the handler together with a
separate `fireStatusTimer` transition that runs when the timer expires.
-/

/-- JS `String.prototype.toLowerCase` (ASCII model, per-character lowering). -/
def jsToLower (s : String) : String :=
  ⟨s.data.map Char.toLower⟩

/-- Does `needle` occur at the very start of `hay` (character lists)? -/
def leadMatch : List Char → List Char → Bool
  | [], _ => true
  | _ :: _, [] => false
  | a :: as, b :: bs => a == b && leadMatch as bs

/-- Does `needle` occur anywhere inside `hay` (character lists)? -/
def hasSub (needle : List Char) : List Char → Bool
  | [] => leadMatch needle []
  | c :: t => leadMatch needle (c :: t) || hasSub needle t

/-- JS `hay.includes(needle)`: substring containment, true on the empty needle. -/
def jsIncludes (hay needle : String) : Bool :=
  hasSub needle.data hay.data

structure Customer where
  _id : String
  firstName : String
  lastName : String
  email : Option String
  phone : String
  address : String
  city : String
  state : String
deriving Repr, DecidableEq

structure Product where
  _id : String
  name : String
  productCode : String
  description : String
  size : String
  color : String
  price : Int
  images : List String
deriving Repr, DecidableEq

structure Stock where
  _id : String
  product : Product
  batchNumber : String
  quantity : Int
  size : String
  price : Int
  lowStockAlert : Int
  lastRestocked : String
  supplier : String
deriving Repr, DecidableEq

structure OrderItem where
  _id : String
  stock : Stock
  quantity : Int
deriving Repr, DecidableEq

structure Order where
  _id : String
  customer : Customer
  items : List OrderItem
  totalAmount : Int
  status : String
  createdAt : String
  deletedAt : Int
deriving Repr, DecidableEq

/-- One entry of `StatusUpdateState` (`{isLoading, error}` per order id). -/
structure RowStatus where
  isLoading : Bool
  error : Option String
deriving Repr, DecidableEq

structure ProductModalState where
  isOpen : Bool
  products : List OrderItem
deriving Repr, DecidableEq

/-- `ConfirmationConfig` minus the `onConfirm` closure. -/
structure ConfirmationConfig where
  isOpen : Bool
  title : String
  message : String
  confirmButtonText : String
  cancelButtonText : String
  itemToDelete : Option Order
deriving Repr, DecidableEq

/-- The component state of `OrderList`.  `statusUpdates` models the JS object
keyed by order id: absence of a key is the Idle state. -/
structure OrderListState where
  orders : List Order
  filteredOrders : List Order
  isLoading : Bool
  error : Option String
  searchQuery : String
  statusUpdates : String → Option RowStatus
  productModal : ProductModalState
  currentProductIndex : Int
  currentImageIndex : Int
  confirmation : ConfirmationConfig

def initialOrderListState : OrderListState :=
  { orders := []
    filteredOrders := []
    isLoading := true
    error := none
    searchQuery := ""
    statusUpdates := fun _ => none
    productModal := { isOpen := false, products := [] }
    currentProductIndex := 0
    currentImageIndex := 0
    confirmation :=
      { isOpen := false, title := "", message := ""
        confirmButtonText := "Confirm", cancelButtonText := "Cancel"
        itemToDelete := none } }

/-- JS object update `{...m, [k]: v}`. -/
def setKey (m : String → Option RowStatus) (k : String) (v : RowStatus) :
    String → Option RowStatus :=
  fun x => if x == k then some v else m x

/-- JS `delete m[k]` on a copy of the object. -/
def eraseKey (m : String → Option RowStatus) (k : String) :
    String → Option RowStatus :=
  fun x => if x == k then none else m x

/-- A `setTimeout` scheduled by `handleStatusChange`: its delay in
milliseconds and the order id captured by the callback's closure. -/
structure ScheduledTimer where
  orderId : String
  delayMs : Nat
deriving Repr, DecidableEq

/-- The callback body of both `setTimeout`s in `handleStatusChange`:
`delete updated[orderId]` on the statusUpdates object current at fire time. -/
def fireStatusTimer (s : OrderListState) (t : ScheduledTimer) : OrderListState :=
  { s with statusUpdates := eraseKey s.statusUpdates t.orderId }

/-- The per-element transformation applied on a successful status update:
`order._id === orderId ? { ...order, status: newStatus } : order`. -/
def updateOrderStatus (orderId newStatus : String) (o : Order) : Order :=
  if o._id == orderId then { o with status := newStatus } else o

/-- `handleStatusChange(orderId, newStatus)`.  `respOk` is `response.ok` of the
PUT; `failMsg` is the message of the error caught on the failure path (the
source throws `'Failed to update order status'` on a non-2xx response).
Returns the new state and the `setTimeout` it schedules. -/
def handleStatusChange (s : OrderListState) (orderId newStatus : String)
    (respOk : Bool) (failMsg : String) : OrderListState × ScheduledTimer :=
  let s0 := { s with statusUpdates := setKey s.statusUpdates orderId ⟨true, none⟩ }
  if respOk then
    ({ s0 with
        orders := s0.orders.map (updateOrderStatus orderId newStatus)
        filteredOrders := s0.filteredOrders.map (updateOrderStatus orderId newStatus)
        statusUpdates := setKey s0.statusUpdates orderId ⟨false, none⟩ },
      ⟨orderId, 2000⟩)
  else
    ({ s0 with statusUpdates := setKey s0.statusUpdates orderId ⟨false, some failMsg⟩ },
      ⟨orderId, 3000⟩)

/-- Outcome of a list fetch: `transportError` covers a network failure or a
non-2xx response (`!response.ok`); `envelope` is a parsed 2xx JSON body. -/
inductive FetchOutcome (α : Type) where
  | transportError
  | envelope (status : String) (data : List α) (message : Option String)
deriving Repr, DecidableEq

/-- JS `m || d` on an optional string (both `undefined` and `""` are falsy). -/
def jsOrElse (m : Option String) (d : String) : String :=
  match m with
  | some s => if s == "" then d else s
  | none => d

/-- The `loadData` effect run on mount. -/
def loadData (s : OrderListState) (resp : FetchOutcome Order) : OrderListState :=
  let s1 := { s with isLoading := true, error := none }
  match resp with
  | .transportError =>
      { s1 with error := some "Failed to fetch orders", isLoading := false }
  | .envelope st data msg =>
      if st == "SUCCESS" then
        { s1 with orders := data, filteredOrders := data, isLoading := false }
      else
        { s1 with error := some (jsOrElse msg "Failed to fetch orders")
                  isLoading := false }

/-- The debounced search predicate of `OrderList.handleSearch`: note the phone
field is matched raw (`order.customer.phone.includes(query)`, no lowering)
and a missing email contributes no match (optional chaining). -/
def orderMatches (query : String) (order : Order) : Bool :=
  jsIncludes (jsToLower order.customer.firstName) (jsToLower query) ||
  jsIncludes (jsToLower order.customer.lastName) (jsToLower query) ||
  jsIncludes (jsToLower order.status) (jsToLower query) ||
  (match order.customer.email with
   | some e => jsIncludes (jsToLower e) (jsToLower query)
   | none => false) ||
  jsIncludes order.customer.phone query

/-- The body of the debounced `handleSearch` closure (filters the canonical
`orders`, writes `filteredOrders`). -/
def handleSearch (s : OrderListState) (query : String) : OrderListState :=
  { s with filteredOrders := s.orders.filter (fun o => orderMatches query o) }

/-- `handleDelete(order)`: raises the confirmation descriptor. -/
def handleDelete (s : OrderListState) (order : Order) : OrderListState :=
  { s with confirmation :=
      { isOpen := true
        title := "Confirm Deletion"
        message := "Are you sure you want to delete order for \"" ++
          order.customer.firstName ++ " " ++ order.customer.lastName ++
          "\"? This action can be reversed later."
        confirmButtonText := "Delete"
        cancelButtonText := "Cancel"
        itemToDelete := some order } }

def closeConfirmationModal (s : OrderListState) : OrderListState :=
  { s with confirmation := { s.confirmation with isOpen := false } }

/-- `performDelete(order)`.  `respOk` is `response.ok` of the DELETE; the
`finally` block closes the confirmation modal on both paths. -/
def performDelete (s : OrderListState) (order : Order) (respOk : Bool) :
    OrderListState :=
  let s1 :=
    if respOk then
      { s with orders := s.orders.filter (fun o => o._id != order._id)
               filteredOrders := s.filteredOrders.filter (fun o => o._id != order._id) }
    else
      { s with error := some "Failed to delete order" }
  closeConfirmationModal s1

def handleViewProducts (s : OrderListState) (items : List OrderItem) :
    OrderListState :=
  { s with productModal := { isOpen := true, products := items }
           currentProductIndex := 0
           currentImageIndex := 0 }

def goToNextProduct (s : OrderListState) : OrderListState :=
  if s.productModal.products.length > 1 then
    { s with
      currentProductIndex :=
        (s.currentProductIndex + 1) % (s.productModal.products.length : Int),
      currentImageIndex := 0 }
  else s

def goToPrevProduct (s : OrderListState) : OrderListState :=
  if s.productModal.products.length > 1 then
    { s with
      currentProductIndex :=
        (s.currentProductIndex - 1 + (s.productModal.products.length : Int)) %
          (s.productModal.products.length : Int),
      currentImageIndex := 0 }
  else s

namespace StockList

structure Product where
  _id : String
  name : String
  productCode : String
  description : String
  size : String
  color : String
  price : Int
  category : String
  images : List String
  createdAt : String
deriving Repr, DecidableEq

structure Stock where
  _id : String
  product : Product
  batchNumber : String
  quantity : Int
  size : String
  price : Int
  lowStockAlert : Int
  lastRestocked : String
  supplier : String
  createdAt : String
deriving Repr, DecidableEq

structure ConfirmationConfig where
  isOpen : Bool
  title : String
  message : String
  confirmButtonText : String
  cancelButtonText : String
  itemToDelete : Option Stock
deriving Repr, DecidableEq

structure StockListState where
  stocks : List Stock
  filteredStocks : List Stock
  isLoading : Bool
  error : Option String
  searchQuery : String
  confirmation : ConfirmationConfig
deriving Repr, DecidableEq

def initialStockListState : StockListState :=
  { stocks := []
    filteredStocks := []
    isLoading := true
    error := none
    searchQuery := ""
    confirmation :=
      { isOpen := false, title := "", message := ""
        confirmButtonText := "Confirm", cancelButtonText := "Cancel"
        itemToDelete := none } }

/-- The `fetchStocks` effect run on mount. -/
def fetchStocks (s : StockListState) (resp : FetchOutcome Stock) : StockListState :=
  let s1 := { s with isLoading := true, error := none }
  match resp with
  | .transportError =>
      { s1 with error := some "Failed to fetch stocks", isLoading := false }
  | .envelope st data msg =>
      if st == "SUCCESS" then
        { s1 with stocks := data, filteredStocks := data, isLoading := false }
      else
        { s1 with error := some (jsOrElse msg "Unknown error occurred")
                  isLoading := false }

def closeConfirmationModal (s : StockListState) : StockListState :=
  { s with confirmation := { s.confirmation with isOpen := false } }

/-- `performDelete(stock)` of the StockList component. -/
def performDelete (s : StockListState) (stock : Stock) (respOk : Bool) :
    StockListState :=
  let s1 :=
    if respOk then
      { s with stocks := s.stocks.filter (fun x => x._id != stock._id)
               filteredStocks := s.filteredStocks.filter (fun x => x._id != stock._id) }
    else
      { s with error := some "Failed to delete stock" }
  closeConfirmationModal s1

/-- The StockList search predicate (all four fields lowered). -/
def stockMatches (query : String) (stock : Stock) : Bool :=
  jsIncludes (jsToLower stock.product.name) (jsToLower query) ||
  jsIncludes (jsToLower stock.product.productCode) (jsToLower query) ||
  jsIncludes (jsToLower stock.batchNumber) (jsToLower query) ||
  jsIncludes (jsToLower stock.supplier) (jsToLower query)

/-- The body of the debounced StockList `handleSearch` closure. -/
def handleSearch (s : StockListState) (query : String) : StockListState :=
  { s with filteredStocks := s.stocks.filter (fun x => stockMatches query x) }

end StockList

/-- The spec's version of the order search predicate, written from the spec's
words for comparison with `orderMatches`: the query is compared
case-insensitively against all five fields, phone included. -/
def orderMatchesSpecWords (query : String) (order : Order) : Bool :=
  jsIncludes (jsToLower order.customer.firstName) (jsToLower query) ||
  jsIncludes (jsToLower order.customer.lastName) (jsToLower query) ||
  jsIncludes (jsToLower order.status) (jsToLower query) ||
  (match order.customer.email with
   | some e => jsIncludes (jsToLower e) (jsToLower query)
   | none => false) ||
  jsIncludes (jsToLower order.customer.phone) (jsToLower query)

/-! Concrete sample data used by witnesses and counterexamples. -/

def mkCustomer (i fn ln ph : String) (em : Option String) : Customer :=
  { _id := i, firstName := fn, lastName := ln, email := em
    phone := ph, address := "", city := "", state := "" }

def ordA : Order :=
  { _id := "a", customer := mkCustomer "c1" "X" "Y" "1" none, items := []
    totalAmount := 0, status := "Pending", createdAt := "", deletedAt := 0 }

def ordB : Order :=
  { _id := "b", customer := mkCustomer "c2" "U" "V" "2" none, items := []
    totalAmount := 0, status := "Shipped", createdAt := "", deletedAt := 0 }

/-- A loaded two-order state with distinct ids. -/
def stateAB : OrderListState :=
  { initialOrderListState with
    orders := [ordA, ordB], filteredOrders := [ordA, ordB], isLoading := false }

/-- A loaded one-order state whose filtered view was produced by the query
`"pending"` (which `ordA` matches through its status). -/
def statePending : OrderListState :=
  { initialOrderListState with
    orders := [ordA], filteredOrders := [ordA]
    searchQuery := "pending", isLoading := false }

/-- An order whose phone field contains upper-case letters and whose other
searched fields do not contain `"ab"` in any case. -/
def ordPhone : Order :=
  { _id := "f", customer := mkCustomer "c3" "F" "G" "AB" none, items := []
    totalAmount := 0, status := "Pending", createdAt := "", deletedAt := 0 }

def prodN : Product :=
  { _id := "p", name := "N", productCode := "PC", description := ""
    size := "", color := "", price := 0, images := [] }

def stockN : Stock :=
  { _id := "s", product := prodN, batchNumber := "B", quantity := 0
    size := "", price := 0, lowStockAlert := 0, lastRestocked := ""
    supplier := "" }

def itemsN : List OrderItem :=
  [⟨"i1", stockN, 1⟩, ⟨"i2", stockN, 1⟩, ⟨"i3", stockN, 1⟩]

/-- A state whose product modal shows a 3-item sequence, index 0. -/
def stateModal3 : OrderListState :=
  { initialOrderListState with
    productModal := { isOpen := true, products := itemsN }
    currentProductIndex := 0, currentImageIndex := 0 }

def stockA : StockList.Stock :=
  { _id := "sa"
    product :=
      { _id := "p1", name := "Shirt", productCode := "SH1", description := ""
        size := "", color := "", price := 0, category := "", images := []
        createdAt := "" }
    batchNumber := "B1", quantity := 5, size := "", price := 0
    lowStockAlert := 1, lastRestocked := "", supplier := "Acme"
    createdAt := "" }

def stockB : StockList.Stock :=
  { _id := "sb"
    product :=
      { _id := "p2", name := "Hat", productCode := "HT1", description := ""
        size := "", color := "", price := 0, category := "", images := []
        createdAt := "" }
    batchNumber := "B2", quantity := 2, size := "", price := 0
    lowStockAlert := 1, lastRestocked := "", supplier := "Zulu"
    createdAt := "" }

/-- A loaded two-stock state with distinct ids. -/
def stockStateAB : StockList.StockListState :=
  { StockList.initialStockListState with
    stocks := [stockA, stockB], filteredStocks := [stockA, stockB]
    isLoading := false }

/-! Helper lemmas. -/

theorem hasSub_nil : ∀ l : List Char, hasSub [] l = true
  | [] => rfl
  | _ :: t => by simp [hasSub, hasSub_nil t, leadMatch]

theorem jsIncludes_empty_needle (h : String) : jsIncludes h "" = true := by
  show hasSub ("" : String).data h.data = true
  exact hasSub_nil _

theorem jsToLower_empty : jsToLower "" = "" := rfl

theorem orderMatches_empty (o : Order) : orderMatches "" o = true := by
  simp [orderMatches, jsToLower_empty, jsIncludes_empty_needle]

theorem stockMatches_empty (x : StockList.Stock) :
    StockList.stockMatches "" x = true := by
  simp [StockList.stockMatches, jsToLower_empty, jsIncludes_empty_needle]

theorem filter_bne_eq_self {α : Type} (f : α → String) (key : String)
    (l : List α) (h : key ∉ l.map f) : l.filter (fun a => f a != key) = l := by
  refine List.filter_eq_self.mpr ?_
  intro a ha
  simp only [bne_iff_ne, ne_eq]
  intro hEq
  exact h (hEq ▸ List.mem_map_of_mem f ha)

theorem filter_bne_length {α : Type} (f : α → String) (key : String) :
    ∀ l : List α, (l.map f).Nodup → key ∈ l.map f →
      (l.filter (fun a => f a != key)).length + 1 = l.length := by
  intro l
  induction l with
  | nil => intro _ hmem; simp at hmem
  | cons a t ih =>
    intro hnd hmem
    simp only [List.map_cons, List.nodup_cons] at hnd
    obtain ⟨hna, hndt⟩ := hnd
    by_cases hk : f a = key
    · have ht : key ∉ t.map f := hk ▸ hna
      have hfa : (f a != key) = false := by simp [hk]
      rw [List.filter_cons, hfa]
      rw [filter_bne_eq_self f key t ht]
      simp
    · have hmt : key ∈ t.map f := by
        rcases List.mem_cons.mp hmem with h1 | h2
        · exact absurd h1.symm hk
        · exact h2
      have hfa : (f a != key) = true := bne_iff_ne.mpr hk
      have hlen := ih hndt hmt
      simp only [List.filter_cons, hfa, if_pos, List.length_cons]
      omega

/-- Pointwise description of the replace-by-id map used on a successful
status update: the element at any position keeps every field and only the
element whose `_id` is `X` gets `status := S`. -/
theorem map_update_get? (X S : String) (l : List Order) (i : Nat) :
    ((l.map (updateOrderStatus X S)).length = l.length) ∧
    ((l[i]?.map Order._id = some X) →
      (l.map (updateOrderStatus X S))[i]? =
        l[i]?.map (fun o => { o with status := S })) ∧
    ((l[i]?.map Order._id ≠ some X) →
      (l.map (updateOrderStatus X S))[i]? = l[i]?) := by
  refine ⟨List.length_map _ _, ?_, ?_⟩
  · intro h
    rw [List.getElem?_map]
    cases hl : l[i]? with
    | none => rfl
    | some o =>
      rw [hl] at h
      have h' : o._id = X := by simpa using h
      simp [updateOrderStatus, h']
  · intro h
    rw [List.getElem?_map]
    cases hl : l[i]? with
    | none => rfl
    | some o =>
      rw [hl] at h
      have h' : o._id ≠ X := by
        intro hEq
        exact h (by simp [hEq])
      simp [updateOrderStatus, h']

/-- C4: for every loaded canonical collection and every query string, the
filtered collection produced by the search filter is a subset of the
canonical collection, and applying the same query a second time over the
same canonical collection yields the same filtered result (both for the
order list and for the stock list). -/
theorem search_subset_idempotent (s : OrderListState)
    (t : StockList.StockListState) (q : String) :
    (∀ o ∈ (handleSearch s q).filteredOrders, o ∈ s.orders) ∧
    (handleSearch (handleSearch s q) q).filteredOrders =
      (handleSearch s q).filteredOrders ∧
    (∀ x ∈ (StockList.handleSearch t q).filteredStocks, x ∈ t.stocks) ∧
    (StockList.handleSearch (StockList.handleSearch t q) q).filteredStocks =
      (StockList.handleSearch t q).filteredStocks :=
  ⟨fun _ ho => List.mem_of_mem_filter ho, rfl,
   fun _ hx => List.mem_of_mem_filter hx, rfl⟩

theorem search_subset_idempotent_witness : ordA ∈ statePending.orders :=
  (search_subset_idempotent statePending stockStateAB "pending").1 ordA (by decide)

/-- C10: filtering with the empty query yields the whole canonical
collection, for the order list and the stock list alike. -/
theorem emptyQuery_restores_full (s : OrderListState)
    (t : StockList.StockListState) :
    (handleSearch s "").filteredOrders = s.orders ∧
    (StockList.handleSearch t "").filteredStocks = t.stocks := by
  constructor
  · exact List.filter_eq_self.mpr (fun o _ => orderMatches_empty o)
  · exact List.filter_eq_self.mpr (fun x _ => stockMatches_empty x)

/-- C2: when the remote status-update call fails, the canonical and filtered
collections are left completely unchanged and the per-row record for that
id becomes the Error state (`isLoading = false`, error set to a message). -/
theorem handleStatusChange_failure_frame (s : OrderListState)
    (X S failMsg : String) :
    (handleStatusChange s X S false failMsg).1.orders = s.orders ∧
    (handleStatusChange s X S false failMsg).1.filteredOrders = s.filteredOrders ∧
    (handleStatusChange s X S false failMsg).1.statusUpdates X =
      some ⟨false, some failMsg⟩ := by
  refine ⟨rfl, rfl, ?_⟩
  simp [handleStatusChange, setKey]

/-- C7: a successful update leaves the row record `{isLoading: false,
error: null}` and schedules a 2000ms timer keyed to the order id; a failed
update leaves the Error record and schedules a 3000ms timer; an expiring
timer deletes exactly the record stored under its own order id and leaves
every other id's record unchanged. -/
theorem statusTimer_keyed (s s2 : OrderListState) (X S failMsg k : String)
    (d : Nat) :
    (handleStatusChange s X S true failMsg).2 = ⟨X, 2000⟩ ∧
    (handleStatusChange s X S true failMsg).1.statusUpdates X =
      some ⟨false, none⟩ ∧
    (handleStatusChange s X S false failMsg).2 = ⟨X, 3000⟩ ∧
    (handleStatusChange s X S false failMsg).1.statusUpdates X =
      some ⟨false, some failMsg⟩ ∧
    (fireStatusTimer s2 ⟨X, d⟩).statusUpdates X = none ∧
    (k ≠ X → (fireStatusTimer s2 ⟨X, d⟩).statusUpdates k = s2.statusUpdates k) := by
  refine ⟨rfl, ?_, rfl, ?_, ?_, ?_⟩
  · simp [handleStatusChange, setKey]
  · simp [handleStatusChange, setKey]
  · simp [fireStatusTimer, eraseKey]
  · intro hk
    simp [fireStatusTimer, eraseKey, hk]

theorem statusTimer_keyed_witness :
    (fireStatusTimer stateAB ⟨"a", 2000⟩).statusUpdates "b" =
      stateAB.statusUpdates "b" :=
  (statusTimer_keyed stateAB stateAB "a" "Shipped" "m" "b" 2000).2.2.2.2.2
    (by decide)

/-- C8: in the product browse overlay, `goToNextProduct` sets the item index
to `(i+1) mod n` and `goToPrevProduct` to `(i-1+n) mod n` when the sequence
has more than one item, both are no-ops when it has at most one, and over a
3-item sequence three nexts from 0 return to 0 while one prev lands on 2. -/
theorem productNavigation_circular (s : OrderListState) :
    (s.productModal.products.length ≤ 1 →
      (goToNextProduct s).currentProductIndex = s.currentProductIndex ∧
      (goToPrevProduct s).currentProductIndex = s.currentProductIndex) ∧
    (1 < s.productModal.products.length →
      (goToNextProduct s).currentProductIndex =
        (s.currentProductIndex + 1) % (s.productModal.products.length : Int) ∧
      (goToPrevProduct s).currentProductIndex =
        (s.currentProductIndex - 1 + (s.productModal.products.length : Int)) %
          (s.productModal.products.length : Int)) ∧
    (goToNextProduct (goToNextProduct (goToNextProduct stateModal3))).currentProductIndex = 0 ∧
    (goToPrevProduct stateModal3).currentProductIndex = 2 := by
  refine ⟨?_, ?_, by decide, by decide⟩
  · intro h
    have hn : ¬ (s.productModal.products.length > 1) := by omega
    constructor <;> simp [goToNextProduct, goToPrevProduct, hn]
  · intro h
    constructor <;> simp [goToNextProduct, goToPrevProduct, h]

theorem productNavigation_circular_witness :
    ((goToNextProduct initialOrderListState).currentProductIndex =
      initialOrderListState.currentProductIndex) ∧
    (goToNextProduct stateModal3).currentProductIndex =
      (stateModal3.currentProductIndex + 1) %
        (stateModal3.productModal.products.length : Int) :=
  ⟨((productNavigation_circular initialOrderListState).1 (by decide)).1,
   ((productNavigation_circular stateModal3).2.1 (by decide)).1⟩

/-- C1: a successful status update of order id `X` to status `S` replaces,
in both the canonical and the filtered collections, exactly the record whose
`_id` equals `X` with a copy whose `status` field is `S`, and leaves every
other record byte-identical (stated pointwise at positions `i` and `j`). -/
theorem handleStatusChange_success_frame (s : OrderListState)
    (X S failMsg : String) (i j : Nat) :
    (handleStatusChange s X S true failMsg).1.orders.length = s.orders.length ∧
    (handleStatusChange s X S true failMsg).1.filteredOrders.length =
      s.filteredOrders.length ∧
    ((s.orders[i]?.map Order._id = some X) →
      (handleStatusChange s X S true failMsg).1.orders[i]? =
        s.orders[i]?.map (fun o => { o with status := S })) ∧
    ((s.orders[i]?.map Order._id ≠ some X) →
      (handleStatusChange s X S true failMsg).1.orders[i]? = s.orders[i]?) ∧
    ((s.filteredOrders[j]?.map Order._id = some X) →
      (handleStatusChange s X S true failMsg).1.filteredOrders[j]? =
        s.filteredOrders[j]?.map (fun o => { o with status := S })) ∧
    ((s.filteredOrders[j]?.map Order._id ≠ some X) →
      (handleStatusChange s X S true failMsg).1.filteredOrders[j]? =
        s.filteredOrders[j]?) := by
  have horders : (handleStatusChange s X S true failMsg).1.orders =
      s.orders.map (updateOrderStatus X S) := rfl
  have hfiltered : (handleStatusChange s X S true failMsg).1.filteredOrders =
      s.filteredOrders.map (updateOrderStatus X S) := rfl
  rw [horders, hfiltered]
  exact ⟨(map_update_get? X S s.orders i).1,
    (map_update_get? X S s.filteredOrders j).1,
    (map_update_get? X S s.orders i).2.1,
    (map_update_get? X S s.orders i).2.2,
    (map_update_get? X S s.filteredOrders j).2.1,
    (map_update_get? X S s.filteredOrders j).2.2⟩

theorem handleStatusChange_success_frame_witness :
    (handleStatusChange stateAB "a" "Shipped" true "m").1.orders[0]? =
      stateAB.orders[0]?.map (fun o => { o with status := "Shipped" }) ∧
    (handleStatusChange stateAB "a" "Shipped" true "m").1.orders[1]? =
      stateAB.orders[1]? :=
  ⟨(handleStatusChange_success_frame stateAB "a" "Shipped" "m" 0 0).2.2.1
      (by decide),
   (handleStatusChange_success_frame stateAB "a" "Shipped" "m" 1 0).2.2.2.1
      (by decide)⟩

/-- C3: on initial load, a 2xx envelope with status `"SUCCESS"` sets both
the canonical and the filtered collection to the returned array; a transport
error or a non-SUCCESS envelope sets a single error message while both
collections remain empty; the two collections are never partially populated
(order list and stock list alike). -/
theorem initialLoad_all_or_nothing (resp : FetchOutcome Order)
    (rs : FetchOutcome StockList.Stock) :
    (∀ stv data msg, resp = .envelope stv data msg → stv = "SUCCESS" →
      (loadData initialOrderListState resp).orders = data ∧
      (loadData initialOrderListState resp).filteredOrders = data ∧
      (loadData initialOrderListState resp).error = none) ∧
    (resp = .transportError →
      (loadData initialOrderListState resp).orders = [] ∧
      (loadData initialOrderListState resp).filteredOrders = [] ∧
      (loadData initialOrderListState resp).error =
        some "Failed to fetch orders") ∧
    (∀ stv data msg, resp = .envelope stv data msg → stv ≠ "SUCCESS" →
      (loadData initialOrderListState resp).orders = [] ∧
      (loadData initialOrderListState resp).filteredOrders = [] ∧
      (loadData initialOrderListState resp).error =
        some (jsOrElse msg "Failed to fetch orders")) ∧
    (loadData initialOrderListState resp).orders =
      (loadData initialOrderListState resp).filteredOrders ∧
    (∀ stv data msg, rs = .envelope stv data msg → stv = "SUCCESS" →
      (StockList.fetchStocks StockList.initialStockListState rs).stocks = data ∧
      (StockList.fetchStocks StockList.initialStockListState rs).filteredStocks =
        data ∧
      (StockList.fetchStocks StockList.initialStockListState rs).error = none) ∧
    (rs = .transportError →
      (StockList.fetchStocks StockList.initialStockListState rs).stocks = [] ∧
      (StockList.fetchStocks StockList.initialStockListState rs).filteredStocks =
        [] ∧
      (StockList.fetchStocks StockList.initialStockListState rs).error =
        some "Failed to fetch stocks") ∧
    (∀ stv data msg, rs = .envelope stv data msg → stv ≠ "SUCCESS" →
      (StockList.fetchStocks StockList.initialStockListState rs).stocks = [] ∧
      (StockList.fetchStocks StockList.initialStockListState rs).filteredStocks =
        [] ∧
      (StockList.fetchStocks StockList.initialStockListState rs).error =
        some (jsOrElse msg "Unknown error occurred")) ∧
    (StockList.fetchStocks StockList.initialStockListState rs).stocks =
      (StockList.fetchStocks StockList.initialStockListState rs).filteredStocks := by
  refine ⟨?_, ?_, ?_, ?_, ?_, ?_, ?_, ?_⟩
  · rintro stv data msg rfl rfl
    simp [loadData, initialOrderListState]
  · rintro rfl
    simp [loadData, initialOrderListState]
  · rintro stv data msg rfl hne
    simp [loadData, initialOrderListState, hne]
  · cases resp with
    | transportError => simp [loadData, initialOrderListState]
    | envelope stv data msg =>
      by_cases h : stv = "SUCCESS" <;>
        simp [loadData, initialOrderListState, h]
  · rintro stv data msg rfl rfl
    simp [StockList.fetchStocks, StockList.initialStockListState]
  · rintro rfl
    simp [StockList.fetchStocks, StockList.initialStockListState]
  · rintro stv data msg rfl hne
    simp [StockList.fetchStocks, StockList.initialStockListState, hne]
  · cases rs with
    | transportError => simp [StockList.fetchStocks, StockList.initialStockListState]
    | envelope stv data msg =>
      by_cases h : stv = "SUCCESS" <;>
        simp [StockList.fetchStocks, StockList.initialStockListState, h]

theorem initialLoad_all_or_nothing_witness :
    (loadData initialOrderListState (.envelope "SUCCESS" [ordA] none)).orders =
      [ordA] ∧
    (StockList.fetchStocks StockList.initialStockListState .transportError).error =
      some "Failed to fetch stocks" :=
  ⟨((initialLoad_all_or_nothing (.envelope "SUCCESS" [ordA] none)
      .transportError).1 "SUCCESS" [ordA] none rfl rfl).1,
   ((initialLoad_all_or_nothing (.envelope "SUCCESS" [ordA] none)
      .transportError).2.2.2.2.2.1 rfl).2.2⟩

/-- C9: confirming deletion with a given id, on remote success, removes
exactly one record (the one whose `_id` matches, assuming distinct ids) from
both the canonical and the filtered collections; deleting an id not present
leaves them unchanged; on remote failure both collections are unchanged and
an error is surfaced (order list and stock list alike). -/
theorem performDelete_by_id (s : OrderListState) (t : StockList.StockListState)
    (order : Order) (stock : StockList.Stock) :
    ((s.orders.map Order._id).Nodup → order._id ∈ s.orders.map Order._id →
      (performDelete s order true).orders.length + 1 = s.orders.length) ∧
    ((s.filteredOrders.map Order._id).Nodup →
      order._id ∈ s.filteredOrders.map Order._id →
      (performDelete s order true).filteredOrders.length + 1 =
        s.filteredOrders.length) ∧
    (∀ o, o ∈ (performDelete s order true).orders ↔
      o ∈ s.orders ∧ o._id ≠ order._id) ∧
    (∀ o, o ∈ (performDelete s order true).filteredOrders ↔
      o ∈ s.filteredOrders ∧ o._id ≠ order._id) ∧
    (order._id ∉ s.orders.map Order._id →
      (performDelete s order true).orders = s.orders) ∧
    (order._id ∉ s.filteredOrders.map Order._id →
      (performDelete s order true).filteredOrders = s.filteredOrders) ∧
    ((performDelete s order false).orders = s.orders ∧
     (performDelete s order false).filteredOrders = s.filteredOrders ∧
     (performDelete s order false).error = some "Failed to delete order") ∧
    ((t.stocks.map StockList.Stock._id).Nodup →
      stock._id ∈ t.stocks.map StockList.Stock._id →
      (StockList.performDelete t stock true).stocks.length + 1 =
        t.stocks.length) ∧
    ((t.filteredStocks.map StockList.Stock._id).Nodup →
      stock._id ∈ t.filteredStocks.map StockList.Stock._id →
      (StockList.performDelete t stock true).filteredStocks.length + 1 =
        t.filteredStocks.length) ∧
    (∀ x, x ∈ (StockList.performDelete t stock true).stocks ↔
      x ∈ t.stocks ∧ x._id ≠ stock._id) ∧
    (∀ x, x ∈ (StockList.performDelete t stock true).filteredStocks ↔
      x ∈ t.filteredStocks ∧ x._id ≠ stock._id) ∧
    (stock._id ∉ t.stocks.map StockList.Stock._id →
      (StockList.performDelete t stock true).stocks = t.stocks) ∧
    (stock._id ∉ t.filteredStocks.map StockList.Stock._id →
      (StockList.performDelete t stock true).filteredStocks =
        t.filteredStocks) ∧
    ((StockList.performDelete t stock false).stocks = t.stocks ∧
     (StockList.performDelete t stock false).filteredStocks =
       t.filteredStocks ∧
     (StockList.performDelete t stock false).error =
       some "Failed to delete stock") := by
  have ho : (performDelete s order true).orders =
      s.orders.filter (fun o => o._id != order._id) := rfl
  have hf : (performDelete s order true).filteredOrders =
      s.filteredOrders.filter (fun o => o._id != order._id) := rfl
  have hso : (StockList.performDelete t stock true).stocks =
      t.stocks.filter (fun x => x._id != stock._id) := rfl
  have hsf : (StockList.performDelete t stock true).filteredStocks =
      t.filteredStocks.filter (fun x => x._id != stock._id) := rfl
  refine ⟨?_, ?_, ?_, ?_, ?_, ?_, ⟨rfl, rfl, rfl⟩,
    ?_, ?_, ?_, ?_, ?_, ?_, ⟨rfl, rfl, rfl⟩⟩
  · intro hnd hmem
    rw [ho]
    exact filter_bne_length Order._id order._id s.orders hnd hmem
  · intro hnd hmem
    rw [hf]
    exact filter_bne_length Order._id order._id s.filteredOrders hnd hmem
  · intro o
    rw [ho]
    simp [List.mem_filter, bne_iff_ne]
  · intro o
    rw [hf]
    simp [List.mem_filter, bne_iff_ne]
  · intro hmem
    rw [ho]
    exact filter_bne_eq_self Order._id order._id s.orders hmem
  · intro hmem
    rw [hf]
    exact filter_bne_eq_self Order._id order._id s.filteredOrders hmem
  · intro hnd hmem
    rw [hso]
    exact filter_bne_length StockList.Stock._id stock._id t.stocks hnd hmem
  · intro hnd hmem
    rw [hsf]
    exact filter_bne_length StockList.Stock._id stock._id t.filteredStocks hnd hmem
  · intro x
    rw [hso]
    simp [List.mem_filter, bne_iff_ne]
  · intro x
    rw [hsf]
    simp [List.mem_filter, bne_iff_ne]
  · intro hmem
    rw [hso]
    exact filter_bne_eq_self StockList.Stock._id stock._id t.stocks hmem
  · intro hmem
    rw [hsf]
    exact filter_bne_eq_self StockList.Stock._id stock._id t.filteredStocks hmem

theorem performDelete_by_id_witness :
    (performDelete stateAB ordA true).orders.length + 1 =
      stateAB.orders.length ∧
    (StockList.performDelete stockStateAB stockA true).stocks.length + 1 =
      stockStateAB.stocks.length :=
  ⟨(performDelete_by_id stateAB stockStateAB ordA stockA).1
      (by decide) (by decide),
   (performDelete_by_id stateAB stockStateAB ordA stockA).2.2.2.2.2.2.2.1
      (by decide) (by decide)⟩

/-- C5 counterexample: after a successful status update the filtered
collection is NOT recomputed by applying the current search predicate to the
new canonical collection, and it can contain an element that no longer
satisfies the current predicate.  Concretely: query `"pending"`, the single
matching order is updated to `"Shipped"`, yet it stays in the filtered
collection while re-filtering the canonical collection would drop it. -/
theorem statusUpdate_not_refiltered_counterexample :
    ((handleStatusChange statePending "a" "Shipped" true "m").1.filteredOrders.all
      (fun o => orderMatches statePending.searchQuery o)) = false ∧
    (handleStatusChange statePending "a" "Shipped" true "m").1.filteredOrders ≠
      (handleStatusChange statePending "a" "Shipped" true "m").1.orders.filter
        (fun o => orderMatches statePending.searchQuery o) := by
  constructor
  · decide
  · decide

/-- C5 amended: when the canonical collection changes (status update success
or delete success), the filtered collection is updated by the same id-scoped
transformation rather than by re-applying the search predicate; this
preserves `filtered ⊆ canonical`, and after a delete every filtered element
still satisfies the predicate it satisfied before  — but after a status
update a filtered record need not satisfy the current predicate. -/
theorem sync_by_id_amended (s : OrderListState) (X S failMsg q : String)
    (order : Order) (hsub : ∀ o ∈ s.filteredOrders, o ∈ s.orders) :
    (∀ o ∈ (handleStatusChange s X S true failMsg).1.filteredOrders,
      o ∈ (handleStatusChange s X S true failMsg).1.orders) ∧
    (∀ o ∈ (performDelete s order true).filteredOrders,
      o ∈ (performDelete s order true).orders) ∧
    ((∀ o ∈ s.filteredOrders, orderMatches q o = true) →
      ∀ o ∈ (performDelete s order true).filteredOrders,
        orderMatches q o = true) := by
  have hmapF : (handleStatusChange s X S true failMsg).1.filteredOrders =
      s.filteredOrders.map (updateOrderStatus X S) := rfl
  have hmapO : (handleStatusChange s X S true failMsg).1.orders =
      s.orders.map (updateOrderStatus X S) := rfl
  have hfF : (performDelete s order true).filteredOrders =
      s.filteredOrders.filter (fun o => o._id != order._id) := rfl
  have hfO : (performDelete s order true).orders =
      s.orders.filter (fun o => o._id != order._id) := rfl
  refine ⟨?_, ?_, ?_⟩
  · intro o ho
    rw [hmapF] at ho
    rw [hmapO]
    obtain ⟨x, hx, rfl⟩ := List.mem_map.mp ho
    exact List.mem_map_of_mem _ (hsub x hx)
  · intro o ho
    rw [hfF] at ho
    rw [hfO]
    obtain ⟨hmem, hne⟩ := List.mem_filter.mp ho
    exact List.mem_filter.mpr ⟨hsub o hmem, hne⟩
  · intro hall o ho
    rw [hfF] at ho
    exact hall o (List.mem_filter.mp ho).1

theorem sync_by_id_amended_witness :
    { ordA with status := "Shipped" } ∈
      (handleStatusChange statePending "a" "Shipped" true "m").1.orders :=
  (sync_by_id_amended statePending "a" "Shipped" "m" "pending" ordA
      (by decide)).1 { ordA with status := "Shipped" } (by decide)

/-- C6 counterexample: the order search predicate is not a case-insensitive
substring match over all five fields — the phone field is matched without
lowering.  `ordPhone` has phone `"AB"`: under the claimed case-insensitive
predicate the query `"ab"` matches it, but the code's predicate rejects it. -/
theorem searchPredicate_case_counterexample :
    orderMatchesSpecWords "ab" ordPhone = true ∧
    orderMatches "ab" ordPhone = false := by
  constructor
  · decide
  · decide

/-- C6 amended: a record matches iff the query is a substring of at least
one of the fixed fields, where for orders the customer first name, last
name, status and email are compared case-insensitively but the phone is
compared case-sensitively (raw substring, and a missing email never
matches); for stocks all four fields (product name, product code, batch
number, supplier) are compared case-insensitively. -/
theorem searchPredicate_fields (q : String) (o : Order)
    (x : StockList.Stock) :
    (orderMatches q o = true ↔
      (jsIncludes (jsToLower o.customer.firstName) (jsToLower q) = true ∨
       jsIncludes (jsToLower o.customer.lastName) (jsToLower q) = true ∨
       jsIncludes (jsToLower o.status) (jsToLower q) = true ∨
       (∃ e, o.customer.email = some e ∧
         jsIncludes (jsToLower e) (jsToLower q) = true) ∨
       jsIncludes o.customer.phone q = true)) ∧
    (StockList.stockMatches q x = true ↔
      (jsIncludes (jsToLower x.product.name) (jsToLower q) = true ∨
       jsIncludes (jsToLower x.product.productCode) (jsToLower q) = true ∨
       jsIncludes (jsToLower x.batchNumber) (jsToLower q) = true ∨
       jsIncludes (jsToLower x.supplier) (jsToLower q) = true)) := by
  constructor
  · cases hem : o.customer.email with
    | none =>
      simp only [orderMatches, hem, Bool.or_eq_true]
      tauto
    | some e =>
      simp [orderMatches, hem]
      tauto
  · simp [StockList.stockMatches]
    tauto

